import Mathlib

/-!
Verification of the hostd state-continuity monitoring engine.

Shallow embedding of the Go sources:
* `updateProcStatus`, `getProcStatus`, `transitionEvent` embed the
  process monitor (ProcessMonitor.updateProcStatus / getProcStatus).
  Machine timestamps are abstracted as `Int` time units; `int64` memory
  values are `Int` (the code only compares them, never overflows).
* `PSU.getStatus`, `NPU.getStatus`, `Fan.getStatus` embed the hardware
  threshold chains; `float64` metrics are `ℚ` (exact at all compared
  literals, and the comparisons in the code are order comparisons against
  decimal constants, so `ℚ` and `float64` agree on every value used here).
* `schedStep` / `schedRun` embed the PeriodicRunner.run select loop as a
  step function over an event list: each loop iteration either observes
  the cooperative stop signal (ctx.Done) or a tick; the body of a tick
  (the full sequential pass over all processes) is a single atomic step,
  exactly as in the source where the for-loop over processes sits inside
  one select arm.
-/

/-- Memory extrema tracked per process (Go struct MemoryStats).
Timestamps are abstract integer time. -/
structure MemoryStats where
  MinMemory : Int
  MaxMemory : Int
  MinTimestamp : Int
  MaxTimestamp : Int
deriving Repr, DecidableEq

/-- Persisted per-process record (Go struct ProcessStatus).
`PreviousPID` is `*int` in Go, hence `Option Int`; the memory-stats field
is named `memStats` because a field may not shadow its own type's name. -/
structure ProcessStatus where
  Name : String
  CurrentPID : Int
  PreviousPID : Option Int
  Status : String
  LastChange : Int
  memStats : MemoryStats
  CurrentMemory : Int
deriving Repr, DecidableEq

/-- The implicitly created record returned by getProcStatus when the store
lookup fails: status "unknown", zero PID, zeroed extrema, timestamps set
to the lookup time (Go zero value for CurrentPID, nil PreviousPID). -/
def freshStatus (name : String) (now : Int) : ProcessStatus :=
  { Name := name
    CurrentPID := 0
    PreviousPID := none
    Status := "unknown"
    LastChange := now
    memStats := { MinMemory := 0, MaxMemory := 0, MinTimestamp := now, MaxTimestamp := now }
    CurrentMemory := 0 }

/-- getProcStatus: the Redis lookup result is `none` when the Get returned
any error (key missing or store unreachable — the Go code checks only
`err != nil`), `some data` on success; `parse` stands for json.Unmarshal
(`none` = unmarshal error, which getProcStatus propagates as an error so
the observation aborts, modelled as the `none` result). -/
def getProcStatus (parse : String → Option ProcessStatus) (name : String)
    (getRes : Option String) (now : Int) : Option ProcessStatus :=
  match getRes with
  | none => some (freshStatus name now)
  | some data =>
    match parse data with
    | none => none
    | some st => some st

/-- A Redis Get against a store modelled as a partial map plus an
availability flag: when the store is unreachable every Get errors
(result `none`), otherwise the lookup errors exactly when the key is
absent (redis.Nil). -/
def storeGet (store : String → Option String) (avail : Bool) (name : String) :
    Option String :=
  if avail then store name else none

/-- Severity of an emitted log event (logger.Info / logger.Critical). -/
inductive Severity where
  | info
  | critical
deriving Repr, DecidableEq

/-- Kind of PID-transition event emitted by updateProcStatus. -/
inductive TransEventKind where
  | started
  | stopped
  | changed
deriving Repr, DecidableEq

/-- The transition log event updateProcStatus emits, from the branch
`if currentPID != currentStatus.CurrentPID`: stopped at Critical when the
previous PID was positive and the new one is 0, started when the previous
was 0 and the new is positive, otherwise the generic PID-changed event;
no event when the PID is unchanged. -/
def transitionEvent (prevPID newPID : Int) : Option (TransEventKind × Severity) :=
  if newPID ≠ prevPID then
    if prevPID > 0 ∧ newPID = 0 then some (TransEventKind.stopped, Severity.critical)
    else if prevPID = 0 ∧ newPID > 0 then some (TransEventKind.started, Severity.info)
    else some (TransEventKind.changed, Severity.info)
  else none

/-- The memory-stats block of updateProcStatus ("Update memory stats if
process is running"): when the current memory reading is positive, the
minimum is replaced (with its timestamp) when it is still the zero
sentinel or the reading is below it, and then the maximum is replaced
(with its timestamp) when the reading exceeds it; a non-positive reading
changes nothing. -/
def memUpdate (ms : MemoryStats) (currentMemory now : Int) : MemoryStats :=
  if currentMemory > 0 then
    let ms1 :=
      if ms.MinMemory = 0 ∨ currentMemory < ms.MinMemory then
        { ms with MinMemory := currentMemory, MinTimestamp := now }
      else ms
    if currentMemory > ms1.MaxMemory then
      { ms1 with MaxMemory := currentMemory, MaxTimestamp := now }
    else ms1
  else ms

/-- Core of ProcessMonitor.updateProcStatus: given the previous record,
the sampled PID (`0` = not running) and raw memory sample, produce the
record that is persisted. `memSample` is what getProcessMemory returned;
as in the source, memory is only consulted when the PID is positive, and
an unavailable reading is the value 0. `now` is the observation time
(the source's time.Now() calls within the update). -/
def updateProcStatus (name : String) (prev : ProcessStatus)
    (currentPID : Int) (memSample : Int) (now : Int) : ProcessStatus :=
  let status := if currentPID > 0 then "up" else "down"
  let currentMemory : Int := if currentPID > 0 then memSample else 0
  let base : ProcessStatus :=
    { Name := name
      CurrentPID := currentPID
      PreviousPID := none
      Status := status
      LastChange := prev.LastChange
      memStats := prev.memStats
      CurrentMemory := currentMemory }
  let afterPid :=
    if currentPID ≠ prev.CurrentPID then
      { base with PreviousPID := some prev.CurrentPID, LastChange := now }
    else
      { base with PreviousPID := prev.PreviousPID }
  { afterPid with memStats := memUpdate afterPid.memStats currentMemory now }

/-- One observation described by its sampled PID, raw memory sample and
observation time. -/
structure Obs where
  pid : Int
  mem : Int
  time : Int
deriving Repr, DecidableEq

/-- Fold a sequence of observations of one entity through
updateProcStatus. -/
def observeAll (name : String) (r : ProcessStatus) (obs : List Obs) : ProcessStatus :=
  obs.foldl (fun s o => updateProcStatus name s o.pid o.mem o.time) r

/-- Tri-level severity verdict (Go type FruStatus). -/
inductive FruStatus where
  | green
  | yellow
  | red
deriving Repr, DecidableEq

/-- The "absent" error signal of PSU.getStatus. -/
def psuAbsentMsg (inst : Int) : String := "PSU " ++ toString inst ++ " not present"

/-- The "acquisition-failed" error signal of PSU.getStatus. -/
def psuFailMsg (inst : Int) : String := "failed to update PSU " ++ toString inst ++ " metrics"

/-- PSU.getStatus: presence short-circuit, then metric update, then the
threshold chain on voltage (±10% of 12V, red) and power (>800W, yellow).
`updateOk` abstracts whether updateMetrics returned nil. -/
def PSU.getStatus (inst : Int) (isPresent updateOk : Bool)
    (voltage power : ℚ) : FruStatus × Option String :=
  if ¬ isPresent then (FruStatus.red, some (psuAbsentMsg inst))
  else if ¬ updateOk then (FruStatus.red, some (psuFailMsg inst))
  else if voltage < 10.8 ∨ voltage > 13.2 then (FruStatus.red, none)
  else if power > 800 then (FruStatus.yellow, none)
  else (FruStatus.green, none)

/-- The "absent" error signal of NPU.getStatus. -/
def npuAbsentMsg (inst : Int) : String := "NPU " ++ toString inst ++ " not present"

/-- The "acquisition-failed" error signal of NPU.getStatus. -/
def npuFailMsg (inst : Int) : String := "failed to update NPU " ++ toString inst ++ " metrics"

/-- NPU.getStatus: presence short-circuit, metric update, then the
threshold chain on buffer and processor utilisation percentages. -/
def NPU.getStatus (inst : Int) (isPresent updateOk : Bool)
    (bufferUsage processorUsage : ℚ) : FruStatus × Option String :=
  if ¬ isPresent then (FruStatus.red, some (npuAbsentMsg inst))
  else if ¬ updateOk then (FruStatus.red, some (npuFailMsg inst))
  else if bufferUsage > 95 ∨ processorUsage > 95 then (FruStatus.red, none)
  else if bufferUsage > 80 ∨ processorUsage > 85 then (FruStatus.yellow, none)
  else (FruStatus.green, none)

/-- The "absent" error signal of Fan.getStatus. -/
def fanAbsentMsg (inst : Int) : String := "fan " ++ toString inst ++ " not present"

/-- The "acquisition-failed" error signal of Fan.getStatus. -/
def fanFailMsg (inst : Int) : String := "failed to update fan " ++ toString inst ++ " metrics"

/-- Fan.getStatus: presence short-circuit, metric update, then the
threshold chain on speed (RPM, `int`) and duty (%). -/
def Fan.getStatus (inst : Int) (isPresent updateOk : Bool)
    (speed duty : Int) : FruStatus × Option String :=
  if ¬ isPresent then (FruStatus.red, some (fanAbsentMsg inst))
  else if ¬ updateOk then (FruStatus.red, some (fanFailMsg inst))
  else if speed < 100 then (FruStatus.red, none)
  else if duty > 90 then (FruStatus.yellow, none)
  else (FruStatus.green, none)

/-- Events driving the scheduler loop: either the cooperative stop signal
(ctx.Done) or a ticker tick carrying the tick's time, both observed at
the select statement that heads each loop iteration. -/
inductive SchedEvent where
  | stop
  | tick (t : Int)
deriving Repr, DecidableEq

/-- Scheduler loop state: the guarded lastCheck timestamp, the log of
executed cycles (tick time paired with the processes observed in that
cycle, in order), and whether the loop has exited. -/
structure SchedState where
  lastCheck : Int
  cycles : List (Int × List String)
  stopped : Bool
deriving Repr, DecidableEq

/-- One iteration of PeriodicRunner.run: once stopped the loop has
returned and no event has any effect; a stop event exits the loop; a tick
runs one full cycle (sequential pass over every tracked process) and sets
lastCheck to the tick time exactly when at least 60 time units (one
minute at 1-second ticks) have elapsed since lastCheck. -/
def schedStep (procs : List String) (s : SchedState) (e : SchedEvent) : SchedState :=
  if s.stopped then s
  else
    match e with
    | SchedEvent.stop => { s with stopped := true }
    | SchedEvent.tick t =>
      if t - s.lastCheck ≥ 60 then
        { s with cycles := s.cycles ++ [(t, procs)], lastCheck := t }
      else s

/-- The scheduler loop run over a sequence of events. -/
def schedRun (procs : List String) (s : SchedState) (es : List SchedEvent) : SchedState :=
  es.foldl (schedStep procs) s

/-- Initial scheduler state: NewPeriodicRunner leaves lastCheck at the
zero time and no cycle has run. -/
def schedInit : SchedState :=
  { lastCheck := 0, cycles := [], stopped := false }

/-- A concrete stored record used to exercise the store-lookup paths: a
process that was seen up with PID 4321 and accumulated memory extrema. -/
def demoRecord : ProcessStatus :=
  { Name := "nginx"
    CurrentPID := 4321
    PreviousPID := some 0
    Status := "up"
    LastChange := 50
    memStats := { MinMemory := 1000, MaxMemory := 2000, MinTimestamp := 10, MaxTimestamp := 20 }
    CurrentMemory := 1500 }

/-- A concrete store holding a serialized record for "nginx" only. -/
def demoStore : String → Option String :=
  fun n => if n = "nginx" then some "stored-record" else none

/-- A concrete deserializer recognising exactly the payload demoStore
holds for "nginx". -/
def demoParse : String → Option ProcessStatus :=
  fun s => if s = "stored-record" then some demoRecord else none

/-! Helper lemmas about the memory-stats block and the update step. -/

/-- memUpdate applied twice with the same reading is the same as once. -/
theorem memUpdate_idem (ms : MemoryStats) (e now1 now2 : Int) :
    memUpdate (memUpdate ms e now1) e now2 = memUpdate ms e now1 := by
  simp only [memUpdate]
  split_ifs <;> simp_all <;> omega

/-- After a positive reading the extrema are ordered, whatever they were
before. -/
theorem memUpdate_min_le_max_of_pos (ms : MemoryStats) (e now : Int) (he : 0 < e) :
    (memUpdate ms e now).MinMemory ≤ (memUpdate ms e now).MaxMemory := by
  simp only [memUpdate]
  split_ifs <;> simp_all <;> omega

/-- memUpdate preserves ordered extrema. -/
theorem memUpdate_min_le_max_mono (ms : MemoryStats) (e now : Int)
    (h : ms.MinMemory ≤ ms.MaxMemory) :
    (memUpdate ms e now).MinMemory ≤ (memUpdate ms e now).MaxMemory := by
  simp only [memUpdate]
  split_ifs <;> simp_all <;> omega

/-- A non-positive reading leaves the extrema untouched. -/
theorem memUpdate_nonpos (ms : MemoryStats) (e now : Int) (he : ¬ 0 < e) :
    memUpdate ms e now = ms := by
  simp only [memUpdate]
  split_ifs <;> simp_all

/-- Field-wise characterisation of one update step: name and PID are
overwritten, status follows the PID, the transition branch rewrites
PreviousPID and LastChange exactly when the PID changed, and the memory
stats go through memUpdate with the effective reading (0 unless the
process is running). -/
theorem updateProcStatus_eq (name : String) (prev : ProcessStatus)
    (currentPID memSample now : Int) :
    updateProcStatus name prev currentPID memSample now =
      { Name := name
        CurrentPID := currentPID
        PreviousPID :=
          if currentPID ≠ prev.CurrentPID then some prev.CurrentPID else prev.PreviousPID
        Status := if currentPID > 0 then "up" else "down"
        LastChange := if currentPID ≠ prev.CurrentPID then now else prev.LastChange
        memStats := memUpdate prev.memStats (if currentPID > 0 then memSample else 0) now
        CurrentMemory := if currentPID > 0 then memSample else 0 } := by
  simp only [updateProcStatus]
  split_ifs <;> rfl

/-- An observation that re-samples the record's own PID preserves the
change history and the stored PID. -/
theorem update_same_pid (name : String) (r : ProcessStatus) (mem now : Int) :
    (updateProcStatus name r r.CurrentPID mem now).LastChange = r.LastChange ∧
    (updateProcStatus name r r.CurrentPID mem now).PreviousPID = r.PreviousPID ∧
    (updateProcStatus name r r.CurrentPID mem now).CurrentPID = r.CurrentPID := by
  simp [updateProcStatus_eq]

/-- Ordered extrema are preserved by any sequence of observations. -/
theorem observeAll_min_le_max (name : String) (r : ProcessStatus) (obs : List Obs)
    (h : r.memStats.MinMemory ≤ r.memStats.MaxMemory) :
    (observeAll name r obs).memStats.MinMemory ≤
      (observeAll name r obs).memStats.MaxMemory := by
  induction obs generalizing r with
  | nil => exact h
  | cons o rest ih =>
    simp only [observeAll, List.foldl_cons] at *
    apply ih
    rw [updateProcStatus_eq]
    exact memUpdate_min_le_max_mono _ _ _ h

/-- The absent and acquisition-failed signals of the PSU differ (their
lengths differ by the fixed wrapping text). -/
theorem psu_msgs_distinct (i : Int) : psuAbsentMsg i ≠ psuFailMsg i := by
  intro h
  have hl := congrArg String.length h
  simp only [psuAbsentMsg, psuFailMsg, String.length_append] at hl
  rw [show ("PSU ".length) = 4 from rfl, show (" not present".length) = 12 from rfl,
    show ("failed to update PSU ".length) = 21 from rfl,
    show (" metrics".length) = 8 from rfl] at hl
  omega

/-- The absent and acquisition-failed signals of the NPU differ. -/
theorem npu_msgs_distinct (i : Int) : npuAbsentMsg i ≠ npuFailMsg i := by
  intro h
  have hl := congrArg String.length h
  simp only [npuAbsentMsg, npuFailMsg, String.length_append] at hl
  rw [show ("NPU ".length) = 4 from rfl, show (" not present".length) = 12 from rfl,
    show ("failed to update NPU ".length) = 21 from rfl,
    show (" metrics".length) = 8 from rfl] at hl
  omega

/-- The absent and acquisition-failed signals of the fan differ. -/
theorem fan_msgs_distinct (i : Int) : fanAbsentMsg i ≠ fanFailMsg i := by
  intro h
  have hl := congrArg String.length h
  simp only [fanAbsentMsg, fanFailMsg, String.length_append] at hl
  rw [show ("fan ".length) = 4 from rfl, show (" not present".length) = 12 from rfl,
    show ("failed to update fan ".length) = 21 from rfl,
    show (" metrics".length) = 8 from rfl] at hl
  omega

/-- A stopped scheduler ignores every event. -/
theorem schedStep_stopped (procs : List String) (s : SchedState) (e : SchedEvent)
    (h : s.stopped = true) : schedStep procs s e = s := by
  simp [schedStep, h]

/-- A stopped scheduler ignores every event sequence. -/
theorem schedRun_stopped (procs : List String) (s : SchedState) (es : List SchedEvent)
    (h : s.stopped = true) : schedRun procs s es = s := by
  induction es with
  | nil => rfl
  | cons e rest ih =>
    simp only [schedRun, List.foldl_cons]
    rw [schedStep_stopped procs s e h]
    exact ih

/-- Every cycle the scheduler ever logs is either pre-existing or a full
pass over all tracked processes. -/
theorem schedRun_cycles_mem (procs : List String) (s : SchedState) (es : List SchedEvent) :
    ∀ c ∈ (schedRun procs s es).cycles, c ∈ s.cycles ∨ c.2 = procs := by
  induction es generalizing s with
  | nil => exact fun c hc => Or.inl hc
  | cons e rest ih =>
    intro c hc
    simp only [schedRun, List.foldl_cons] at hc
    rcases ih (schedStep procs s e) c hc with h1 | h2
    · simp only [schedStep] at h1
      split_ifs at h1
      · exact Or.inl h1
      · cases e with
        | stop => exact Or.inl h1
        | tick t =>
          dsimp at h1
          split_ifs at h1
          · simp only [List.mem_append, List.mem_singleton] at h1
            rcases h1 with h1a | h1b
            · exact Or.inl h1a
            · right; rw [h1b]
          · exact Or.inl h1
    · exact Or.inr h2

/-! The claims. -/

/-- C1: with no stored record (the implicitly created record is the
previous state), a first observation with pid 4321 and memory 10485760
bytes yields status "up", CurrentPID 4321, PreviousPID 0, both extrema
10485760, and every timestamp (LastChange included) equal to the
observation time, whatever the creation time of the implicit record. -/
theorem first_observation_scenario (t0 t : Int) :
    updateProcStatus "nginx" (freshStatus "nginx" t0) 4321 10485760 t =
      { Name := "nginx"
        CurrentPID := 4321
        PreviousPID := some 0
        Status := "up"
        LastChange := t
        memStats := { MinMemory := 10485760, MaxMemory := 10485760,
                      MinTimestamp := t, MaxTimestamp := t }
        CurrentMemory := 10485760 } := by
  simp [updateProcStatus, freshStatus, memUpdate]

/-- C2: the transition event is classified by the previous and new PID:
previous 0 and new positive emits started; previous positive and new 0
emits stopped at Critical severity; two distinct positive PIDs emit the
changed event (neither started nor stopped); an unchanged PID emits no
event. -/
theorem transition_classification (prevPID newPID : Int) :
    (prevPID = 0 → 0 < newPID →
      transitionEvent prevPID newPID = some (TransEventKind.started, Severity.info)) ∧
    (0 < prevPID → newPID = 0 →
      transitionEvent prevPID newPID = some (TransEventKind.stopped, Severity.critical)) ∧
    (0 < prevPID → 0 < newPID → prevPID ≠ newPID →
      transitionEvent prevPID newPID = some (TransEventKind.changed, Severity.info)) ∧
    (prevPID = newPID → transitionEvent prevPID newPID = none) := by
  unfold transitionEvent
  refine ⟨?_, ?_, ?_, ?_⟩ <;> intros <;> split_ifs <;> first | rfl | omega

/-- Witness for C2 at the PID pairs of the spec scenarios. -/
theorem transition_classification_witness :
    transitionEvent 0 1234 = some (TransEventKind.started, Severity.info) ∧
    transitionEvent 1234 0 = some (TransEventKind.stopped, Severity.critical) ∧
    transitionEvent 1234 5678 = some (TransEventKind.changed, Severity.info) ∧
    transitionEvent 7 7 = none := by
  refine ⟨?_, ?_, ?_, ?_⟩
  · exact (transition_classification 0 1234).1 rfl (by decide)
  · exact (transition_classification 1234 0).2.1 (by decide) rfl
  · exact (transition_classification 1234 5678).2.2.1 (by decide) (by decide) (by decide)
  · exact (transition_classification 7 7).2.2.2 rfl

/-- C3: along any sequence of observations whose sampled PID is the
constant positive value the record already carries (the state reached by
the first transition into that PID), LastChange never advances and
PreviousPID never changes. -/
theorem constant_pid_preserves_history (name : String) (p : Int) (hp : 0 < p)
    (r : ProcessStatus) (hr : r.CurrentPID = p) (obs : List Obs)
    (hobs : ∀ o ∈ obs, o.pid = p) :
    (observeAll name r obs).LastChange = r.LastChange ∧
    (observeAll name r obs).PreviousPID = r.PreviousPID := by
  clear hp
  induction obs generalizing r with
  | nil => exact ⟨rfl, rfl⟩
  | cons o rest ih =>
    have hpid : o.pid = p := hobs o (List.mem_cons_self o rest)
    have hrest : ∀ o2 ∈ rest, o2.pid = p := fun o2 h2 => hobs o2 (List.mem_cons_of_mem o h2)
    have hstep := update_same_pid name r o.mem o.time
    have hcur : (updateProcStatus name r o.pid o.mem o.time).CurrentPID = p := by
      rw [hpid, ← hr]; exact hstep.2.2
    have hfold := ih (updateProcStatus name r o.pid o.mem o.time) hcur hrest
    simp only [observeAll, List.foldl_cons] at *
    constructor
    · rw [hfold.1, hpid, ← hr]; exact hstep.1
    · rw [hfold.2, hpid, ← hr]; exact hstep.2.1

/-- Witness for C3: one further observation of PID 4321 on a record
already at PID 4321 leaves the change history untouched. -/
theorem constant_pid_preserves_history_witness :
    0 < (4321 : Int) ∧
    demoRecord.CurrentPID = 4321 ∧
    (∀ o ∈ [(⟨4321, 5, 9⟩ : Obs)], o.pid = 4321) ∧
    (observeAll "nginx" demoRecord [⟨4321, 5, 9⟩]).LastChange = demoRecord.LastChange ∧
    (observeAll "nginx" demoRecord [⟨4321, 5, 9⟩]).PreviousPID = demoRecord.PreviousPID :=
  ⟨by decide, rfl, by decide,
    constant_pid_preserves_history "nginx" 4321 (by decide) demoRecord rfl
      [⟨4321, 5, 9⟩] (by decide)⟩

/-- C4: after any sequence of observations containing at least one in
which the process was running with a positive memory sample, the record
satisfies MinMemory less than or equal to MaxMemory (from any starting
record, hence after every such prefix of a longer sequence). -/
theorem min_le_max_invariant (name : String) (r : ProcessStatus) (obs : List Obs)
    (h : ∃ o ∈ obs, 0 < o.pid ∧ 0 < o.mem) :
    (observeAll name r obs).memStats.MinMemory ≤
      (observeAll name r obs).memStats.MaxMemory := by
  induction obs generalizing r with
  | nil => simp at h
  | cons o rest ih =>
    simp only [observeAll, List.foldl_cons] at *
    by_cases hpos : 0 < o.pid ∧ 0 < o.mem
    · apply observeAll_min_le_max
      rw [updateProcStatus_eq]
      have he : (if o.pid > 0 then o.mem else 0) = o.mem := if_pos hpos.1
      rw [he]
      exact memUpdate_min_le_max_of_pos _ _ _ hpos.2
    · rcases h with ⟨o2, ho2, hpo2⟩
      rcases List.mem_cons.mp ho2 with h1 | h2
      · exact absurd (h1 ▸ hpo2) hpos
      · exact ih _ ⟨o2, h2, hpo2⟩

/-- Witness for C4: a single running observation with a positive sample
orders the extrema of the implicit initial record. -/
theorem min_le_max_invariant_witness :
    (∃ o ∈ [(⟨4321, 100, 3⟩ : Obs)], 0 < o.pid ∧ 0 < o.mem) ∧
    (observeAll "nginx" (freshStatus "nginx" 0) [⟨4321, 100, 3⟩]).memStats.MinMemory ≤
      (observeAll "nginx" (freshStatus "nginx" 0) [⟨4321, 100, 3⟩]).memStats.MaxMemory :=
  ⟨by decide,
    min_le_max_invariant "nginx" (freshStatus "nginx" 0) [⟨4321, 100, 3⟩] (by decide)⟩

/-- C5: for an observation of a running process with a positive memory
sample, the minimum (with its timestamp) is replaced exactly when the
sample is below the stored minimum or the stored minimum is the zero
sentinel, the maximum (with its timestamp) exactly when the sample
exceeds the stored maximum; a first positive sample (stored minimum
still zero) always becomes the minimum; and a zero memory sample never
changes either extremum. -/
theorem memory_extrema_update_rule (name : String) (r : ProcessStatus)
    (pid mem now : Int) (hpid : 0 < pid) (hmem : 0 < mem) :
    ((updateProcStatus name r pid mem now).memStats.MinMemory =
      if r.memStats.MinMemory = 0 ∨ mem < r.memStats.MinMemory then mem
      else r.memStats.MinMemory) ∧
    ((updateProcStatus name r pid mem now).memStats.MinTimestamp =
      if r.memStats.MinMemory = 0 ∨ mem < r.memStats.MinMemory then now
      else r.memStats.MinTimestamp) ∧
    ((updateProcStatus name r pid mem now).memStats.MaxMemory =
      if mem > r.memStats.MaxMemory then mem else r.memStats.MaxMemory) ∧
    ((updateProcStatus name r pid mem now).memStats.MaxTimestamp =
      if mem > r.memStats.MaxMemory then now else r.memStats.MaxTimestamp) ∧
    (r.memStats.MinMemory = 0 →
      (updateProcStatus name r pid mem now).memStats.MinMemory = mem) ∧
    (∀ pid2 now2, (updateProcStatus name r pid2 0 now2).memStats = r.memStats) := by
  have he : (if pid > 0 then mem else 0) = mem := if_pos hpid
  simp only [updateProcStatus_eq, he, memUpdate]
  refine ⟨?_, ?_, ?_, ?_, ?_, ?_⟩
  · split_ifs <;> simp_all <;> omega
  · split_ifs <;> simp_all <;> omega
  · split_ifs <;> simp_all <;> omega
  · split_ifs <;> simp_all <;> omega
  · intro h0; split_ifs <;> simp_all <;> omega
  · intro pid2 now2
    simp only [ite_self]
    split_ifs <;> simp_all

/-- Witness for C5: a sample of 500 against stored extrema 1000/2000
becomes the new minimum and leaves the maximum alone. -/
theorem memory_extrema_update_rule_witness :
    0 < (4321 : Int) ∧ 0 < (500 : Int) ∧
    (((updateProcStatus "nginx" demoRecord 4321 500 99).memStats.MinMemory =
      if demoRecord.memStats.MinMemory = 0 ∨ 500 < demoRecord.memStats.MinMemory then 500
      else demoRecord.memStats.MinMemory) ∧
    ((updateProcStatus "nginx" demoRecord 4321 500 99).memStats.MinTimestamp =
      if demoRecord.memStats.MinMemory = 0 ∨ 500 < demoRecord.memStats.MinMemory then 99
      else demoRecord.memStats.MinTimestamp) ∧
    ((updateProcStatus "nginx" demoRecord 4321 500 99).memStats.MaxMemory =
      if 500 > demoRecord.memStats.MaxMemory then 500 else demoRecord.memStats.MaxMemory) ∧
    ((updateProcStatus "nginx" demoRecord 4321 500 99).memStats.MaxTimestamp =
      if 500 > demoRecord.memStats.MaxMemory then 99 else demoRecord.memStats.MaxTimestamp) ∧
    (demoRecord.memStats.MinMemory = 0 →
      (updateProcStatus "nginx" demoRecord 4321 500 99).memStats.MinMemory = 500) ∧
    (∀ pid2 now2, (updateProcStatus "nginx" demoRecord pid2 0 now2).memStats =
      demoRecord.memStats)) :=
  ⟨by decide, by decide,
    memory_extrema_update_rule "nginx" demoRecord 4321 500 99 (by decide) (by decide)⟩

/-- C6: re-observing the same (pid, memory) sample twice in a row yields
a record identical, field by field, to the one after the first of the two
observations, regardless of the two observation times. -/
theorem observation_idempotent (name : String) (r : ProcessStatus)
    (pid mem now1 now2 : Int) :
    updateProcStatus name (updateProcStatus name r pid mem now1) pid mem now2 =
      updateProcStatus name r pid mem now1 := by
  simp [updateProcStatus_eq, memUpdate_idem]

/-- C7: the severity thresholds use the exact strict comparisons of the
tables with the critical rule tested first: a power reading of exactly
800 W is OK while 800.01 W is WARNING; a fan speed of exactly 100 RPM is
OK while 99 RPM is CRITICAL; an NPU snapshot with buffer usage 96 is
CRITICAL, with 85 WARNING, and with buffer and processor usage both 50
OK. -/
theorem threshold_boundaries :
    PSU.getStatus 1 true true 12 800 = (FruStatus.green, none) ∧
    PSU.getStatus 1 true true 12 800.01 = (FruStatus.yellow, none) ∧
    Fan.getStatus 1 true true 100 60 = (FruStatus.green, none) ∧
    Fan.getStatus 1 true true 99 60 = (FruStatus.red, none) ∧
    NPU.getStatus 1 true true 96 10 = (FruStatus.red, none) ∧
    NPU.getStatus 1 true true 85 10 = (FruStatus.yellow, none) ∧
    NPU.getStatus 1 true true 50 50 = (FruStatus.green, none) := by
  refine ⟨?_, ?_, ?_, ?_, ?_, ?_, ?_⟩ <;>
    simp [PSU.getStatus, Fan.getStatus, NPU.getStatus] <;> norm_num

/-- C8: for each hardware kind, a not-present entity yields CRITICAL with
the absent signal whatever the other inputs; a present entity whose
metric acquisition fails yields CRITICAL with the acquisition-failed
signal; a measured-critical verdict yields CRITICAL with no signal; and
the two signals are distinct, so the three CRITICAL cases are mutually
distinguishable. -/
theorem hardware_error_signals (i : Int) :
    (∀ (uo : Bool) (v p : ℚ),
      PSU.getStatus i false uo v p = (FruStatus.red, some (psuAbsentMsg i))) ∧
    (∀ (v p : ℚ), PSU.getStatus i true false v p = (FruStatus.red, some (psuFailMsg i))) ∧
    (∀ (v p : ℚ), (v < 10.8 ∨ v > 13.2) →
      PSU.getStatus i true true v p = (FruStatus.red, none)) ∧
    psuAbsentMsg i ≠ psuFailMsg i ∧
    (∀ (uo : Bool) (bu pu : ℚ),
      NPU.getStatus i false uo bu pu = (FruStatus.red, some (npuAbsentMsg i))) ∧
    (∀ (bu pu : ℚ), NPU.getStatus i true false bu pu = (FruStatus.red, some (npuFailMsg i))) ∧
    (∀ (bu pu : ℚ), (bu > 95 ∨ pu > 95) →
      NPU.getStatus i true true bu pu = (FruStatus.red, none)) ∧
    npuAbsentMsg i ≠ npuFailMsg i ∧
    (∀ (uo : Bool) (sp du : Int),
      Fan.getStatus i false uo sp du = (FruStatus.red, some (fanAbsentMsg i))) ∧
    (∀ (sp du : Int), Fan.getStatus i true false sp du = (FruStatus.red, some (fanFailMsg i))) ∧
    (∀ (sp du : Int), sp < 100 → Fan.getStatus i true true sp du = (FruStatus.red, none)) ∧
    fanAbsentMsg i ≠ fanFailMsg i := by
  refine ⟨?_, ?_, ?_, psu_msgs_distinct i, ?_, ?_, ?_, npu_msgs_distinct i,
    ?_, ?_, ?_, fan_msgs_distinct i⟩ <;> intros <;>
    simp_all [PSU.getStatus, NPU.getStatus, Fan.getStatus]

/-- Witness for C8 with instance 1: a missing PSU, a failed NPU metric
update, and a near-stopped fan each surface as CRITICAL with the
appropriate signal. -/
theorem hardware_error_signals_witness :
    PSU.getStatus 1 false true 12 600 = (FruStatus.red, some (psuAbsentMsg 1)) ∧
    PSU.getStatus 1 true false 12 600 = (FruStatus.red, some (psuFailMsg 1)) ∧
    PSU.getStatus 1 true true 9 600 = (FruStatus.red, none) ∧
    psuAbsentMsg 1 ≠ psuFailMsg 1 ∧
    NPU.getStatus 1 false true 60 70 = (FruStatus.red, some (npuAbsentMsg 1)) ∧
    NPU.getStatus 1 true false 60 70 = (FruStatus.red, some (npuFailMsg 1)) ∧
    NPU.getStatus 1 true true 96 10 = (FruStatus.red, none) ∧
    npuAbsentMsg 1 ≠ npuFailMsg 1 ∧
    Fan.getStatus 1 false true 2000 60 = (FruStatus.red, some (fanAbsentMsg 1)) ∧
    Fan.getStatus 1 true false 2000 60 = (FruStatus.red, some (fanFailMsg 1)) ∧
    Fan.getStatus 1 true true 99 60 = (FruStatus.red, none) ∧
    fanAbsentMsg 1 ≠ fanFailMsg 1 := by
  obtain ⟨h1, h2, h3, h4, h5, h6, h7, h8, h9, h10, h11, h12⟩ := hardware_error_signals 1
  exact ⟨h1 true 12 600, h2 12 600, h3 9 600 (by norm_num), h4,
    h5 true 60 70, h6 60 70, h7 96 10 (by norm_num), h8,
    h9 true 2000 60, h10 2000 60, h11 99 60 (by norm_num), h12⟩

/-- C9: on a tick the loop runs one full observation cycle (a sequential
pass over every tracked process) and then sets lastCheck to the tick time
exactly when at least 60 time units have elapsed since lastCheck,
otherwise the tick is a no-op; once the stop signal is observed at a tick
boundary the loop exits and no later event ever starts a cycle; and every
cycle that was begun appears in the log as a complete pass over all
tracked processes. -/
theorem scheduler_tick_and_stop (procs : List String) (s : SchedState) (t : Int)
    (es : List SchedEvent) (h : s.stopped = false) :
    (schedStep procs s (SchedEvent.tick t) =
      if t - s.lastCheck ≥ 60 then
        { s with cycles := s.cycles ++ [(t, procs)], lastCheck := t }
      else s) ∧
    ((schedRun procs (schedStep procs s SchedEvent.stop) es).cycles = s.cycles) ∧
    (∀ c ∈ (schedRun procs s es).cycles, c ∈ s.cycles ∨ c.2 = procs) := by
  refine ⟨?_, ?_, schedRun_cycles_mem procs s es⟩
  · simp [schedStep, h]
  · have hstop : schedStep procs s SchedEvent.stop = { s with stopped := true } := by
      simp [schedStep, h]
    rw [hstop, schedRun_stopped _ _ _ rfl]

/-- Witness for C9 from the initial scheduler state: a tick at time 60
runs a cycle, and ticks arriving after the stop signal do not. -/
theorem scheduler_tick_and_stop_witness :
    schedInit.stopped = false ∧
    ((schedStep ["nginx"] schedInit (SchedEvent.tick 60) =
      if (60 : Int) - schedInit.lastCheck ≥ 60 then
        { schedInit with cycles := schedInit.cycles ++ [(60, ["nginx"])], lastCheck := 60 }
      else schedInit) ∧
    ((schedRun ["nginx"] (schedStep ["nginx"] schedInit SchedEvent.stop)
        [SchedEvent.tick 120]).cycles = schedInit.cycles) ∧
    (∀ c ∈ (schedRun ["nginx"] schedInit [SchedEvent.tick 120]).cycles,
      c ∈ schedInit.cycles ∨ c.2 = ["nginx"])) :=
  ⟨rfl, scheduler_tick_and_stop ["nginx"] schedInit 60 [SchedEvent.tick 120] rfl⟩

/-- C10 counterexample: the store holds a record for "nginx", yet with
the store unreachable the Get errors and getProcStatus hands the
observation the implicitly created record instead of the stored one — so
the implicit record is not used only when no stored record exists. -/
theorem fresh_record_despite_stored_counterexample :
    (demoStore "nginx").isSome = true ∧
    getProcStatus demoParse "nginx" (storeGet demoStore false "nginx") 100 =
      some (freshStatus "nginx" 100) ∧
    freshStatus "nginx" 100 ≠ demoRecord := by
  refine ⟨rfl, rfl, ?_⟩
  intro h
  have hpid := congrArg ProcessStatus.CurrentPID h
  simp [freshStatus, demoRecord] at hpid

/-- C10 amended: the implicitly created record is used as the previous
record exactly when the store Get fails — which happens when the store is
unavailable as well as when no record exists; whenever the Get succeeds
and the payload parses, the stored record is used; a payload that fails
to parse aborts the observation. -/
theorem implicit_record_fallback (parse : String → Option ProcessStatus)
    (name : String) (getRes : Option String) (now : Int) :
    (getRes = none → getProcStatus parse name getRes now = some (freshStatus name now)) ∧
    (∀ data st, getRes = some data → parse data = some st →
      getProcStatus parse name getRes now = some st) ∧
    (∀ data, getRes = some data → parse data = none →
      getProcStatus parse name getRes now = none) ∧
    (∀ (store : String → Option String) (avail : Bool),
      storeGet store avail name = none ↔ (avail = false ∨ store name = none)) := by
  refine ⟨?_, ?_, ?_, ?_⟩
  · intro h; rw [h]; rfl
  · intro data st h1 h2; rw [h1]; simp [getProcStatus, h2]
  · intro data h1 h2; rw [h1]; simp [getProcStatus, h2]
  · intro store avail
    cases avail <;> simp [storeGet]

/-- Witness for C10 amended, at the demo store: a failed Get yields the
implicit record, and a successful Get with a parsing payload hands the
stored record to the observation. -/
theorem implicit_record_fallback_witness :
    getProcStatus demoParse "nginx" none 5 = some (freshStatus "nginx" 5) ∧
    getProcStatus demoParse "nginx" (some "stored-record") 5 = some demoRecord := by
  constructor
  · exact (implicit_record_fallback demoParse "nginx" none 5).1 rfl
  · exact (implicit_record_fallback demoParse "nginx" (some "stored-record") 5).2.1
      "stored-record" demoRecord rfl (by decide)
